import Mathlib

set_option maxRecDepth 8000
set_option maxHeartbeats 1000000

namespace Jupyderp

/-!  Shallow embedding of the core of `jupyderp.py`: the allowlist HTML
sanitizer, the cell/output extractor, title detection, page assembly and
the multipart decoder.

Strings are modelled as `List Char` at the core (Python `str`; the byte
strings of the multipart decoder are modelled as characters with code
points below 256, and UTF-8 decoding of pure-ASCII data is the identity).
The CPython `re` engine is modelled by a small backtracking matcher over
an explicit pattern AST, specialised to the handful of patterns the
source uses; alternatives are tried left to right and the option/star
operators are greedy with backtracking, exactly as CPython `re` behaves
on these patterns.  The `fuel` arguments only bound recursion depth so
that every definition is structurally recursive and kernel-reducible;
`2 * length + 100` strictly exceeds the deepest call chain these
patterns can produce on any input, so the bound is never reached.
Character classes are modelled over the ASCII range the source meets. -/

/-- Pattern AST covering the regexes in the source: literal characters,
character classes, concatenation, ordered alternation, greedy option,
greedy class star, greedy star of a non-nullable pattern, and numbered
capturing groups. -/
inductive RE where
  | eps : RE
  | chr : Char → RE
  | cls : (Char → Bool) → RE
  | cat : RE → RE → RE
  | alt : RE → RE → RE
  | opt : RE → RE
  | starCls : (Char → Bool) → RE
  | starNN : RE → RE
  | group : Nat → RE → RE

/-- Captured groups: group index paired with the captured characters. -/
abbrev Caps := List (Nat × List Char)

/-- Result of a match attempt: captures and the remaining input. -/
abbrev MRes := Option (Caps × List Char)

/-- Greedy backtracking for a class star: try the continuation after the
longest class run first, then shorter and shorter prefixes. -/
def tryShrink (k : Caps → List Char → MRes) (caps : Caps) (s : List Char) : Nat → MRes
  | 0 => k caps s
  | i + 1 =>
    match k caps (s.drop (i + 1)) with
    | some r => some r
    | none => tryShrink k caps s i

/-- Backtracking matcher in continuation-passing style. -/
def reM : Nat → RE → List Char → Caps → (Caps → List Char → MRes) → MRes
  | 0, _, _, _, _ => none
  | fuel + 1, re, s, caps, k =>
    match re with
    | .eps => k caps s
    | .chr c =>
      match s with
      | [] => none
      | x :: rest => if x = c then k caps rest else none
    | .cls p =>
      match s with
      | [] => none
      | x :: rest => if p x then k caps rest else none
    | .cat a b => reM fuel a s caps fun caps2 s2 => reM fuel b s2 caps2 k
    | .alt a b =>
      match reM fuel a s caps k with
      | some r => some r
      | none => reM fuel b s caps k
    | .opt r =>
      match reM fuel r s caps k with
      | some r2 => some r2
      | none => k caps s
    | .starCls p => tryShrink k caps s (s.takeWhile p).length
    | .starNN r =>
      match reM fuel r s caps (fun caps2 s2 => reM fuel (.starNN r) s2 caps2 k) with
      | some r2 => some r2
      | none => k caps s
    | .group i r =>
      reM fuel r s caps fun caps2 s2 =>
        k (caps2 ++ [(i, s.take (s.length - s2.length))]) s2

/-- Depth bound passed to the matcher (never reached by these patterns). -/
def reFuel (s : List Char) : Nat := 2 * s.length + 100

/-- Attempt a match anchored at the start of `s` (Python `re.match`). -/
def reMatchAt (r : RE) (s : List Char) : MRes :=
  reM (reFuel s) r s [] fun caps rest => some (caps, rest)

/-- Look up a captured group (Python `m.group(i)`; `none` means the group
did not participate in the match). -/
def capGet (caps : Caps) (i : Nat) : Option (List Char) :=
  (caps.find? (fun x => x.1 == i)).map (fun x => x.2)

/-- Python `pattern.sub(f, s)`: scan left to right, replace each
non-overlapping match by `f caps full`, continue after the match. -/
def reSubst (r : RE) (f : Caps → List Char → List Char) : Nat → List Char → List Char
  | 0, s => s
  | _, [] => []
  | fuel + 1, c :: rest =>
    match reMatchAt r (c :: rest) with
    | some (caps, rem) =>
      f caps ((c :: rest).take ((c :: rest).length - rem.length)) ++ reSubst r f fuel rem
    | none => c :: reSubst r f fuel rest

/-- Python `pattern.finditer(s)`: captures of each non-overlapping match. -/
def reFindAll (r : RE) : Nat → List Char → List Caps
  | 0, _ => []
  | _, [] => []
  | fuel + 1, c :: rest =>
    match reMatchAt r (c :: rest) with
    | some (caps, rem) => caps :: reFindAll r fuel rem
    | none => reFindAll r fuel rest

/-- Python `pattern.search(s)`: captures of the leftmost match. -/
def reSearch (r : RE) : Nat → List Char → Option Caps
  | 0, _ => none
  | fuel + 1, s =>
    match reMatchAt r s with
    | some (caps, _) => some caps
    | none =>
      match s with
      | [] => none
      | _ :: rest => reSearch r fuel rest

/-- The word-character class of the patterns (ASCII range). -/
def pyWordChar (c : Char) : Bool := c.isAlphanum || c = '_'

/-- The whitespace class of the patterns (ASCII range). -/
def pySpaceChar (c : Char) : Bool :=
  c = ' ' || c = '\t' || c = '\n' || c = '\r' || c = '\x0b' || c = '\x0c'

/-- The negated class excluding the closing angle bracket and both quote
characters, used inside the tag pattern. -/
def notTagSpecial (c : Char) : Bool := !(c = '>' || c = '"' || c = '\'')

/-- The ASCII-letter class. -/
def asciiLetter (c : Char) : Bool := ('A' ≤ c && c ≤ 'Z') || ('a' ≤ c && c ≤ 'z')

/-- The parameter class of the ANSI CSI pattern: digits, semicolon, colon. -/
def csiParamChar (c : Char) : Bool := c.isDigit || c = ';' || c = ':'

/-- A literal string as a pattern. -/
def reStr (cs : List Char) : RE := cs.foldr (fun c acc => RE.cat (RE.chr c) acc) RE.eps

/-- One-or-more repetition of a class, as class followed by class star. -/
def plusCls (p : Char → Bool) : RE := .cat (.cls p) (.starCls p)

/-- One case-insensitive literal character (re.IGNORECASE, ASCII). -/
def caseChr (c : Char) : RE := .cls fun x => x.toLower = c

/-- A case-insensitive literal string. -/
def caseStr (cs : List Char) : RE := cs.foldr (fun c acc => RE.cat (caseChr c) acc) RE.eps

/-- A double-quoted run: quote, any non-quote characters, quote. -/
def quotedD : RE := .cat (.chr '"') (.cat (.starCls fun c => !(c = '"')) (.chr '"'))

/-- A single-quoted run: quote, any non-quote characters, quote. -/
def quotedS : RE := .cat (.chr '\'') (.cat (.starCls fun c => !(c = '\'')) (.chr '\''))

/-- One repetition inside the attribute blob: a run of unproblematic
characters followed by a double- or single-quoted run. -/
def attrChunk : RE := .cat (.starCls notTagSpecial) (.alt quotedD quotedS)

/-- The attribute blob of the tag pattern: whitespace, then repetitions
of `attrChunk`, then a final run of unproblematic characters. -/
def attrsInner : RE :=
  .cat (plusCls pySpaceChar) (.cat (.starNN attrChunk) (.starCls notTagSpecial))

/-- The tag pattern `_tag_re`: an opening angle bracket, an optional
slash (group 1), a word-character tag name (group 2), an optional
attribute blob (group 3), optional whitespace, an optional slash, and
the closing angle bracket. -/
def tag_re : RE :=
  .cat (.chr '<')
    (.cat (.group 1 (.opt (.chr '/')))
      (.cat (.group 2 (plusCls pyWordChar))
        (.cat (.group 3 (.opt attrsInner))
          (.cat (.starCls pySpaceChar) (.cat (.opt (.chr '/')) (.chr '>'))))))

/-- The attribute pattern of `_sanitize_html`: a name of word characters
or hyphens (group 1), an equals sign with optional surrounding
whitespace, and a double-quoted (group 2), single-quoted (group 3) or
bare non-whitespace (group 4) value. -/
def attr_re : RE :=
  .cat (.group 1 (plusCls fun c => pyWordChar c || c = '-'))
    (.cat (.starCls pySpaceChar)
      (.cat (.chr '=')
        (.cat (.starCls pySpaceChar)
          (.alt (.cat (.chr '"') (.cat (.group 2 (.starCls fun c => !(c = '"'))) (.chr '"')))
            (.alt (.cat (.chr '\'') (.cat (.group 3 (.starCls fun c => !(c = '\''))) (.chr '\'')))
              (.group 4 (plusCls fun c => !pySpaceChar c)))))))

/-- `_DANGEROUS_URL_SCHEMES`: optional leading whitespace, then
`javascript`, `vbscript` or `data` case-insensitively, then optional
whitespace and a colon; tested with `.match`, anchored at the start. -/
def dangerous_url_schemes : RE :=
  .cat (.starCls pySpaceChar)
    (.cat (.alt (caseStr "javascript".toList)
        (.alt (caseStr "vbscript".toList) (caseStr "data".toList)))
      (.cat (.starCls pySpaceChar) (.chr ':')))

/-- `_DANGEROUS_URL_SCHEMES.match(v)` as a Boolean. -/
def dangerousMatch (v : List Char) : Bool := (reMatchAt dangerous_url_schemes v).isSome

/-- The ANSI pattern of the error branch: either a CSI sequence (ESC,
opening square bracket, parameter characters, one ASCII letter) or an
OSC sequence (ESC, closing square bracket, any characters other than
BEL, ended by BEL or by ESC and a backslash). -/
def ansi_re : RE :=
  .alt
    (.cat (.chr '\x1b') (.cat (.chr '[') (.cat (.starCls csiParamChar) (.cls asciiLetter))))
    (.cat (.chr '\x1b') (.cat (.chr ']')
      (.cat (.starCls fun c => !(c = '\x07'))
        (.alt (.chr '\x07') (.cat (.chr '\x1b') (.chr '\\'))))))

/-- The multipart field-name pattern: the literal text `name="` followed
by one or more non-quote characters (group 1) and a closing quote. -/
def name_re : RE :=
  .cat (reStr "name=\"".toList)
    (.cat (.group 1 (plusCls fun c => !(c = '"'))) (.chr '"'))

/-- `html.escape(s, quote=True)`; the sequential stdlib replacements
coincide with this character-wise map because the inserted replacement
texts are never rewritten by the later passes. -/
def escChar (c : Char) : List Char :=
  if c = '&' then "&amp;".toList
  else if c = '<' then "&lt;".toList
  else if c = '>' then "&gt;".toList
  else if c = '"' then "&quot;".toList
  else if c = '\'' then "&#x27;".toList
  else [c]

def htmlEscape (s : List Char) : List Char := (s.map escChar).flatten

def htmlEscapeS (s : String) : String := String.mk (htmlEscape s.toList)

/-- Python `str.lower()` (ASCII). -/
def lowerL (s : List Char) : List Char := s.map Char.toLower

/-- Python `str.rstrip()`. -/
def rstripL (s : List Char) : List Char := (s.reverse.dropWhile pySpaceChar).reverse

/-- Python `str.strip()`. -/
def pyStripL (s : List Char) : List Char := rstripL (s.dropWhile pySpaceChar)

def pyStripS (s : String) : String := String.mk (pyStripL s.toList)

/-- `_SAFE_TAGS`. -/
def SAFE_TAGS : List String :=
  ["a", "abbr", "b", "blockquote", "br", "caption", "code", "col",
   "colgroup", "dd", "del", "details", "dfn", "div", "dl", "dt", "em",
   "figcaption", "figure", "h1", "h2", "h3", "h4", "h5", "h6", "hr",
   "i", "img", "ins", "kbd", "li", "mark", "ol", "p", "pre", "q", "rp",
   "rt", "ruby", "s", "samp", "small", "span", "strong", "sub", "summary",
   "sup", "svg", "table", "tbody", "td", "tfoot", "th", "thead", "tr",
   "u", "ul", "var", "wbr",
   "circle", "clippath", "defs", "ellipse", "g", "line", "linearGradient",
   "marker", "mask", "path", "pattern", "polygon", "polyline", "radialGradient",
   "rect", "stop", "text", "tspan"]

/-- `_SAFE_ATTRS`. -/
def SAFE_ATTRS : List String :=
  ["alt", "border", "cellpadding", "cellspacing", "class", "colspan",
   "dir", "height", "href", "id", "lang", "name", "role", "rowspan",
   "scope", "src", "style", "summary", "tabindex", "title", "valign",
   "width",
   "cx", "cy", "d", "dx", "dy", "fill", "fill-opacity", "fill-rule",
   "font-family", "font-size", "font-weight", "gradientTransform",
   "gradientUnits", "markerHeight", "markerWidth", "offset", "opacity",
   "orient", "patternUnits", "points", "preserveAspectRatio", "r", "refX",
   "refY", "rx", "ry", "stop-color", "stop-opacity", "stroke",
   "stroke-dasharray", "stroke-linecap", "stroke-linejoin",
   "stroke-opacity", "stroke-width", "text-anchor", "transform",
   "viewBox", "x", "x1", "x2", "xmlns", "y", "y1", "y2"]

/-- The attribute value selection of the loop: group 2 if it
participated, else group 3, else group 4. -/
def attrValOf (caps : Caps) : List Char :=
  match capGet caps 2 with
  | some v => v
  | none =>
    match capGet caps 3 with
    | some v => v
    | none => (capGet caps 4).getD []

/-- All name/value pairs produced by `finditer` of the attribute pattern
over the attribute blob of one matched tag. -/
def parsedAttrs (attrStr : List Char) : List (List Char × List Char) :=
  (reFindAll attr_re attrStr.length attrStr).filterMap fun caps =>
    match capGet caps 1 with
    | some nm => some (nm, attrValOf caps)
    | none => none

/-- The three skip tests of the attribute loop as one Boolean: the loop
keeps an attribute iff its lowercased name does not start with `on`, is
in `_SAFE_ATTRS`, and, when it is `href`, `src` or `action`, the value
does not match the dangerous-scheme pattern. -/
def attrKeep (nm v : List Char) : Bool :=
  let n := lowerL nm
  !("on".toList.isPrefixOf n) && SAFE_ATTRS.contains (String.mk n) &&
    !((n = "href".toList || n = "src".toList || n = "action".toList) && dangerousMatch v)

/-- The attributes surviving the loop, with their lowercased names. -/
def keptAttrs (attrStr : List Char) : List (List Char × List Char) :=
  (parsedAttrs attrStr).filterMap fun nv =>
    if attrKeep nv.1 nv.2 then some (lowerL nv.1, nv.2) else none

/-- Python `sep.join` for a one-character separator. -/
def joinSep (sep : Char) : List (List Char) → List Char
  | [] => []
  | [x] => x
  | x :: xs => x ++ sep :: joinSep sep xs

/-- `_replace_tag`: the substitution callback of the sanitizer. -/
def replace_tag (caps : Caps) (full : List Char) : List Char :=
  let tagName := lowerL ((capGet caps 2).getD [])
  if "</".toList.isPrefixOf full then
    if SAFE_TAGS.contains (String.mk tagName) then full else []
  else if !(SAFE_TAGS.contains (String.mk tagName)) then []
  else
    let attrStr := (capGet caps 3).getD []
    let safeParts := (keptAttrs attrStr).map fun nv =>
      nv.1 ++ '=' :: '"' :: (htmlEscape nv.2 ++ ['"'])
    let closing : List Char := if "/>".toList.isSuffixOf (rstripL full) then ['/'] else []
    let attrs : List Char := if safeParts = [] then [] else ' ' :: joinSep ' ' safeParts
    '<' :: (tagName ++ attrs ++ closing ++ ['>'])

/-- One pass of `_tag_re.sub(_replace_tag, s)`. -/
def subTagsOnce (s : List Char) : List Char := reSubst tag_re replace_tag s.length s

/-- The bounded fixed-point loop of `_sanitize_html` (five iterations,
breaking early when a pass leaves the string unchanged). -/
def sanitizeLoop : Nat → List Char → List Char
  | 0, s => s
  | n + 1, s =>
    let r := subTagsOnce s
    if r = s then s else sanitizeLoop n r

def sanitizeHtmlL (s : List Char) : List Char := sanitizeLoop 5 s

/-- `_sanitize_html`. -/
def sanitize_html (s : String) : String := String.mk (sanitizeHtmlL s.toList)

/-- ANSI stripping of one traceback line: the ANSI pattern substituted
by the empty string. -/
def stripAnsiL (s : List Char) : List Char := reSubst ansi_re (fun _ _ => []) s.length s

def stripAnsi (s : String) : String := String.mk (stripAnsiL s.toList)

/-- A notebook text field: either a plain string or a list of strings. -/
inductive PyStr where
  | str (v : String)
  | arr (vs : List String)
deriving DecidableEq

/-- `_join`. -/
def join : PyStr → String
  | .arr vs => String.join vs
  | .str v => v

/-- One raw output record: `output_type` plus the fields the code reads;
an absent JSON field is the stated default, mirroring the `.get` calls. -/
structure RawOutput where
  output_type : String := ""
  text : PyStr := .arr []
  data : List (String × PyStr) := []
  traceback : List String := []
deriving DecidableEq

/-- One raw notebook cell. -/
structure RawCell where
  cell_type : String := "code"
  source : PyStr := .arr []
  outputs : List RawOutput := []
  execution_count : Option Int := none
deriving DecidableEq

/-- The four accumulating channels of the output loop in
`_extract_cell_data`. -/
structure Channels where
  textParts : List String := []
  htmlParts : List String := []
  imageParts : List (String × String) := []
  errorParts : List String := []
deriving DecidableEq

/-- The `image/png` branch; the state is the channels plus `has_rich`. -/
def pngStep (d : List (String × PyStr)) (st : Channels × Bool) : Channels × Bool :=
  match d.lookup "image/png" with
  | some v =>
    ({ st.1 with imageParts := st.1.imageParts ++ [(pyStripS (join v), "image/png")] }, true)
  | none => st

/-- The `image/jpeg` branch. -/
def jpegStep (d : List (String × PyStr)) (st : Channels × Bool) : Channels × Bool :=
  match d.lookup "image/jpeg" with
  | some v =>
    ({ st.1 with imageParts := st.1.imageParts ++ [(pyStripS (join v), "image/jpeg")] }, true)
  | none => st

/-- The `image/gif` branch. -/
def gifStep (d : List (String × PyStr)) (st : Channels × Bool) : Channels × Bool :=
  match d.lookup "image/gif" with
  | some v =>
    ({ st.1 with imageParts := st.1.imageParts ++ [(pyStripS (join v), "image/gif")] }, true)
  | none => st

/-- The `image/svg+xml` branch. -/
def svgStep (d : List (String × PyStr)) (st : Channels × Bool) : Channels × Bool :=
  match d.lookup "image/svg+xml" with
  | some v => ({ st.1 with htmlParts := st.1.htmlParts ++ [sanitize_html (join v)] }, true)
  | none => st

/-- The `text/html` branch. -/
def htmlStep (d : List (String × PyStr)) (st : Channels × Bool) : Channels × Bool :=
  match d.lookup "text/html" with
  | some v => ({ st.1 with htmlParts := st.1.htmlParts ++ [sanitize_html (join v)] }, true)
  | none => st

/-- The `text/latex` branch. -/
def latexStep (d : List (String × PyStr)) (st : Channels × Bool) : Channels × Bool :=
  match d.lookup "text/latex" with
  | some v =>
    ({ st.1 with htmlParts := st.1.htmlParts ++
        ["<div class=\"latex-output\">" ++ htmlEscapeS (join v) ++ "</div>"] }, true)
  | none => st

/-- The Google Colaboratory intrinsic JSON branch. -/
def colabStep (d : List (String × PyStr)) (st : Channels × Bool) : Channels × Bool :=
  if (d.lookup "application/vnd.google.colaboratory.intrinsic+json").isSome then
    (if st.2 = false then
       match d.lookup "text/plain" with
       | some v => ({ st.1 with textParts := st.1.textParts ++ [join v] }, true)
       | none => (st.1, true)
     else (st.1, true))
  else st

/-- The Jupyter interactive widget branch. -/
def widgetStep (d : List (String × PyStr)) (st : Channels × Bool) : Channels × Bool :=
  if (d.lookup "application/vnd.jupyter.widget-view+json").isSome then
    (let wt := join ((d.lookup "text/plain").getD (.str ""))
     if wt = "" then (st.1, true)
     else ({ st.1 with textParts := st.1.textParts ++ [wt] }, true))
  else st

/-- The final last-resort `text/plain` fallback branch. -/
def plainStep (d : List (String × PyStr)) (st : Channels × Bool) : Channels × Bool :=
  if st.2 = true then st
  else
    match d.lookup "text/plain" with
    | some v => ({ st.1 with textParts := st.1.textParts ++ [join v] }, st.2)
    | none => st

/-- The `execute_result` and `display_data` branch of the output loop:
the nine representation branches in source order, starting from
`has_rich = false`. -/
def processRichData (d : List (String × PyStr)) (ch : Channels) : Channels :=
  (plainStep d (widgetStep d (colabStep d (latexStep d
    (htmlStep d (svgStep d (gifStep d (jpegStep d (pngStep d (ch, false)))))))))).1

/-- The body of the output loop of `_extract_cell_data`. -/
def processOutput (ch : Channels) (out : RawOutput) : Channels :=
  if out.output_type = "stream" then
    { ch with textParts := ch.textParts ++ [join out.text] }
  else if out.output_type = "execute_result" ∨ out.output_type = "display_data" then
    processRichData out.data ch
  else if out.output_type = "error" then
    { ch with errorParts := ch.errorParts ++ out.traceback.map stripAnsi }
  else ch

def combinedChannels (outs : List RawOutput) : Channels := outs.foldl processOutput {}

/-- The output aggregate: the `output`, `outputHtml`, `images` and
`error` entries of the result record; `none` at the top level means the
keys were not set at all. -/
structure OutAgg where
  output : Option String
  outputHtml : Option String
  images : Option (List (String × String))
  error : Option String
deriving DecidableEq

/-- Combine the four channels and decide presence, as the source does:
the aggregate is set iff some combined channel is truthy, and each entry
is the combined value when truthy and `None` otherwise.  (The four local
variables of the source are written inline here.) -/
def buildAgg (outs : List RawOutput) : Option OutAgg :=
  if String.join (combinedChannels outs).textParts ≠ "" ∨
     String.join (combinedChannels outs).htmlParts ≠ "" ∨
     (combinedChannels outs).imageParts ≠ [] ∨
     String.intercalate "\n" (combinedChannels outs).errorParts ≠ "" then
    some { output := if String.join (combinedChannels outs).textParts ≠ "" then
                       some (String.join (combinedChannels outs).textParts) else none,
           outputHtml := if String.join (combinedChannels outs).htmlParts ≠ "" then
                           some (String.join (combinedChannels outs).htmlParts) else none,
           images := if (combinedChannels outs).imageParts ≠ [] then
                       some ((combinedChannels outs).imageParts) else none,
           error := if String.intercalate "\n" (combinedChannels outs).errorParts ≠ "" then
                      some (String.intercalate "\n" (combinedChannels outs).errorParts) else none }
  else none

/-- The canonical cell record produced by `_extract_cell_data`. -/
inductive CellData where
  | markdown (content : String)
  | code (content : String) (output : Option OutAgg) (executionCount : Option Int)
deriving DecidableEq

/-- `_extract_cell_data`. -/
def extract_cell_data (cell : RawCell) : CellData :=
  if cell.cell_type = "markdown" then .markdown (join cell.source)
  else if cell.cell_type = "raw" then .markdown ("```\n" ++ join cell.source ++ "\n```")
  else .code (join cell.source) (buildAgg cell.outputs) cell.execution_count

/-- The line-break characters of Python `str.splitlines`. -/
def isLineBreakChar (c : Char) : Bool :=
  c = '\n' || c = '\r' || c = '\x0b' || c = '\x0c' || c = '\x1c' ||
  c = '\x1d' || c = '\x1e' || c = '\x85' || c = '\u2028' || c = '\u2029'

/-- Python `str.splitlines()` (accumulator-passing worker). -/
def splitlinesGo : List Char → List Char → List (List Char)
  | [], acc => if acc.isEmpty then [] else [acc.reverse]
  | '\r' :: '\n' :: rest, acc => acc.reverse :: splitlinesGo rest []
  | c :: rest, acc =>
    if isLineBreakChar c then acc.reverse :: splitlinesGo rest []
    else splitlinesGo rest (c :: acc)

def splitlines (s : String) : List (List Char) := splitlinesGo s.toList []

/-- The heading-marker removal of `detect_title`: the anchored pattern
removing a leading run of hash characters and the following whitespace
(with no MULTILINE flag it can only match at the very start, and only
when a hash is present). -/
def dropHashWs (s : List Char) : List Char :=
  match s with
  | '#' :: _ => (s.dropWhile fun c => c = '#').dropWhile pySpaceChar
  | _ => s

/-- A parsed notebook: the cell list plus the two metadata strings the
language and title code reads (`metadata.kernelspec.language`,
defaulting to the empty string, and `metadata.language_info.name`,
defaulting to `python`). -/
structure Notebook where
  cells : List RawCell := []
  kernel_language : String := ""
  language_info_name : String := "python"
deriving DecidableEq

/-- `detect_title`: scan for the first markdown cell; inside it, the
first line whose stripped text starts with a hash and a space yields the
title, with the leading hashes and whitespace removed and the result
stripped; otherwise the fallback. -/
def detect_title (nb : Notebook) (fallback : String) : String :=
  match nb.cells.find? (fun c => c.cell_type == "markdown") with
  | none => fallback
  | some c =>
    match (splitlines (join c.source)).find? (fun l => "# ".toList.isPrefixOf (pyStripL l)) with
    | none => fallback
    | some l => String.mk (pyStripL (dropHashWs (pyStripL l)))

/-- `detect_kernel_language`. -/
def detect_kernel_language (nb : Notebook) : String :=
  let lang := String.mk (lowerL nb.kernel_language.toList)
  if lang ≠ "" then lang else String.mk (lowerL nb.language_info_name.toList)

/-- The Prism language allowlist of `build_html`. -/
def PRISM_LANGS : List String :=
  ["python", "javascript", "r", "julia", "ruby", "bash", "sql",
   "c", "cpp", "java", "go", "rust", "typescript", "scala"]

def prismLangOf (nb : Notebook) : String :=
  let language := detect_kernel_language nb
  if PRISM_LANGS.contains language then language else "python"

/-- The Python expression `title or default` for the optional title. -/
def pyOrStr (t : Option String) (d : String) : String :=
  match t with
  | none => d
  | some s => if s = "" then d else s

def TITLE_MARK : String := "\x7b\x7bTITLE\x7d\x7d"
def PRISM_MARK : String := "\x7b\x7bPRISM_LANG\x7d\x7d"
def CELLS_MARK : String := "\x7b\x7bCELLS_JSON\x7d\x7d"

/-- `build_html`, with the static page template and the JSON
serialisation of the extracted cells (`notebook_to_js_cells`) taken as
parameters: the template is an opaque constant in the source and the
serialised cell list does not depend on the `title` argument; the title
selection, escaping and the three substitutions are embedded exactly. -/
def build_html (template cellsJsonRaw : String) (nb : Notebook) (title : Option String) : String :=
  let nbTitle := pyOrStr title (detect_title nb "Jupyter Notebook")
  let cellsJson := cellsJsonRaw.replace "</" "<\\/"
  ((template.replace TITLE_MARK (htmlEscapeS nbTitle)).replace PRISM_MARK
    (prismLangOf nb)).replace CELLS_MARK cellsJson

/-- Python `bytes.split(sep)` for a non-empty separator (worker). -/
def bsplit (sep : List Char) : Nat → List Char → List (List Char)
  | 0, s => [s]
  | fuel + 1, s =>
    if sep.isPrefixOf s then
      match bsplit sep fuel (s.drop sep.length) with
      | [] => [[]]
      | parts => [] :: parts
    else
      match s with
      | [] => [[]]
      | c :: rest =>
        match bsplit sep fuel rest with
        | [] => [[c]]
        | h :: t => (c :: h) :: t

def pySplit (s sep : List Char) : List (List Char) := bsplit sep (s.length + 1) s

/-- Python `bytes.find(sub)` (as an `Option` instead of minus one). -/
def findSubIdx (sub : List Char) : Nat → List Char → Option Nat
  | 0, _ => none
  | fuel + 1, s =>
    if sub.isPrefixOf s then some 0
    else
      match s with
      | [] => none
      | _ :: rest => (findSubIdx sub fuel rest).map (· + 1)

/-- Python dict assignment over an insertion-ordered association list:
an existing key keeps its position and gets the new value. -/
def dictInsert (d : List (String × List Char)) (k : String) (v : List Char) :
    List (String × List Char) :=
  match d with
  | [] => [(k, v)]
  | (k2, v2) :: rest => if k2 = k then (k2, v) :: rest else (k2, v2) :: dictInsert rest k v

/-- `_parse_multipart` (bytes modelled as characters; the UTF-8 decode
of the header block with replacement errors is the identity on ASCII). -/
def parse_multipart (body : List Char) (boundary : List Char) : List (String × List Char) :=
  let delimiter := '-' :: '-' :: boundary
  let segments := pySplit body delimiter
  segments.foldl
    (fun parts seg =>
      if seg = [] ∨ seg = "--".toList ∨ seg = "--\r\n".toList ∨ seg = "\r\n".toList then parts
      else
        let seg2 := seg.dropWhile fun c => c = '\r' || c = '\n'
        if "--".toList.isPrefixOf seg2 then parts
        else
          match findSubIdx "\r\n\r\n".toList (seg2.length + 1) seg2 with
          | none => parts
          | some sep =>
            let headerBlock := seg2.take sep
            let payload0 := seg2.drop (sep + 4)
            let payload :=
              if "\r\n".toList.isSuffixOf payload0 then payload0.take (payload0.length - 2)
              else payload0
            match reSearch name_re (headerBlock.length + 1) headerBlock with
            | none => parts
            | some caps =>
              match capGet caps 1 with
              | some nm => dictInsert parts (String.mk nm) payload
              | none => parts)
    []

/-! ## Concrete inputs used by the theorems -/

/-- Split-tag obfuscation nesting: each layer wraps the payload in the
two halves of a `script` tag, so that removing the inner tag re-forms a
new one (the bypass pattern the five-pass loop is meant to defeat). -/
def nest : Nat → String → String
  | 0, s => s
  | n + 1, s => "<scri" ++ nest n s ++ "pt>"

/-- A well-formed two-part body whose boundary token is `XYZ` and whose
notebook payload contains the literal text `--boundary` mid-line. -/
def c2GoodBody : String :=
  "--XYZ\r\nContent-Disposition: form-data; name=\"notebook\"\r\n\r\nAAA--boundaryZZZ\r\n--XYZ\r\nContent-Disposition: form-data; name=\"title\"\r\n\r\nMy Title\r\n--XYZ--\r\n"

/-- The same two-part body with boundary token `boundary`, so the
notebook payload contains the actual delimiter without a preceding
CRLF. -/
def c2BadBody : String :=
  "--boundary\r\nContent-Disposition: form-data; name=\"notebook\"\r\n\r\nAAA--boundaryZZZ\r\n--boundary\r\nContent-Disposition: form-data; name=\"title\"\r\n\r\nMy Title\r\n--boundary--\r\n"

/-- A code cell with one stream output. -/
def c7StreamCell : RawCell :=
  { cell_type := "code", source := PyStr.arr ["print(1)"],
    outputs := [{ output_type := "stream", text := PyStr.arr ["1\n"] }] }

/-- A code cell whose only output record produces empty channels. -/
def c7EmptyCell : RawCell :=
  { cell_type := "code", source := PyStr.str "x",
    outputs := [{ output_type := "stream", text := PyStr.str "" }] }

/-- An output record carrying a PNG, a plain-text value and a widget
view at once. -/
def c5Record : RawOutput :=
  { output_type := "execute_result",
    data := [("image/png", PyStr.str "AAAA"), ("text/plain", PyStr.str "fallback"), ("application/vnd.jupyter.widget-view+json", PyStr.str "w")] }

/-- A record with a PNG and a plain-text companion, nothing else. -/
def c5PngPlain : List (String × PyStr) := [("image/png", PyStr.str "x"), ("text/plain", PyStr.str "p")]

/-- A record carrying only a plain-text value. -/
def c5PlainOnly : List (String × PyStr) := [("text/plain", PyStr.str "only")]

/-- A record whose PNG entry maps to the empty string next to a
plain-text companion. -/
def c6Record : RawOutput :=
  { output_type := "execute_result", data := [("image/png", PyStr.str ""), ("text/plain", PyStr.str "shown")] }

/-- The same record with the plain-text companion kept abstract. -/
def c6Rec (p : PyStr) : RawOutput :=
  { output_type := "execute_result", data := [("image/png", PyStr.str ""), ("text/plain", p)] }

/-- A widget record whose companion plain text is empty. -/
def c6WidgetEmpty : RawOutput :=
  { output_type := "execute_result", data := [("application/vnd.jupyter.widget-view+json", PyStr.str "w"), ("text/plain", PyStr.str "")] }

/-- A markdown cell with a level-one heading over body text. -/
def mdCell (src : String) : RawCell := { cell_type := "markdown", source := PyStr.str src }

/-! ## Theorems -/

/-- Bridge: on an `execute_result` or `display_data` record the output
loop runs exactly the rich-data branch chain. -/
theorem processOutput_exec (t : String) (d : List (String × PyStr)) (ch : Channels)
    (ht : t = "execute_result" ∨ t = "display_data") :
    processOutput ch { output_type := t, data := d } = processRichData d ch := by
  rcases ht with rfl | rfl <;> rfl

/-- C1 (counterexample): the sanitizer postcondition fails as stated: on
a five-layer split-tag obfuscation nesting of a `script` tag, the
five-pass loop is exhausted before reaching a fixed point and the output
is exactly the disallowed tag `<script>` — an element tag outside the
allowlist and an active script-execution vector. -/
theorem c1_counterexample :
    sanitize_html (nest 5 "<script>") = "<script>" ∧
    SAFE_TAGS.contains "script" = false := by
  constructor
  · decide
  · decide

/-- C1 (amended): the no-disallowed-tag guarantee does hold for three
and four layers of split-tag obfuscation nesting (the fragments sanitize
to the empty string), a plain disallowed tag pair is removed with its
markers dropped, and event-handler attributes are stripped from kept
elements; the universal postcondition is true only up to the five-pass
bound, not for every input. -/
theorem c1_amended :
    sanitize_html (nest 3 "<script>") = "" ∧
    sanitize_html (nest 4 "<script>") = "" ∧
    sanitize_html "<script>alert(1)</script>" = "alert(1)" ∧
    sanitize_html "<p onclick=\"x()\" class=\"c\">t</p>" = "<p class=\"c\">t</p>" := by
  refine ⟨by decide, by decide, by decide, by decide⟩

/-- C2 (counterexample): with boundary token `boundary`, a part whose
payload contains the literal delimiter `--boundary` without a preceding
CRLF is split at that occurrence: the stored notebook field is the
truncated prefix `AAA`, not the raw payload `AAA--boundaryZZZ`, refuting
the claim that such an occurrence does not split or corrupt the part. -/
theorem c2_counterexample :
    parse_multipart c2BadBody.toList "boundary".toList =
      [("notebook", "AAA".toList), ("title", "My Title".toList)] ∧
    ("AAA".toList : List Char) ≠ "AAA--boundaryZZZ".toList := by
  constructor
  · decide
  · decide

/-- C2 (amended): for a two-part body whose payloads do not contain the
actual delimiter, decoding yields exactly the keys `notebook` and
`title`, each mapped to the raw part payload with the single trailing
CRLF stripped — including a payload that contains the literal text
`--boundary` when the actual boundary token is different; an occurrence
of the actual delimiter inside a payload does split the part there. -/
theorem c2_amended :
    parse_multipart c2GoodBody.toList "XYZ".toList =
      [("notebook", "AAA--boundaryZZZ".toList), ("title", "My Title".toList)] := by
  decide

/-- C3 (counterexample): sanitization is not idempotent on every input:
on the five-layer nesting the loop returns `<script>`, which a second
sanitization reduces further, so the double application differs. -/
theorem c3_counterexample :
    sanitize_html (sanitize_html (nest 5 "<script>")) ≠ sanitize_html (nest 5 "<script>") := by
  decide

/-- C3 (amended): sanitization is idempotent on every input whose
sanitized output is a fixed point of the tag-filtering pass — in
particular whenever the five-pass loop converged before its bound;
inputs that exhaust the bound (such as the five-layer nesting) can
violate idempotence. -/
theorem c3_amended (x : List Char) (h : subTagsOnce (sanitizeHtmlL x) = sanitizeHtmlL x) :
    sanitizeHtmlL (sanitizeHtmlL x) = sanitizeHtmlL x := by
  have key : ∀ y : List Char, subTagsOnce y = y → sanitizeHtmlL y = y := by
    intro y hy
    show (if subTagsOnce y = y then y else sanitizeLoop 4 (subTagsOnce y)) = y
    rw [if_pos hy]
  exact key _ h

/-- Witness for C3 (amended) at a concrete convergent input. -/
theorem c3_witness :
    sanitizeHtmlL (sanitizeHtmlL "<script>hi</script>".toList) =
      sanitizeHtmlL "<script>hi</script>".toList :=
  c3_amended "<script>hi</script>".toList (by decide)

/-- C4: every attribute kept by the attribute-filtering loop of the
sanitizer (the attributes of every kept element are rebuilt exclusively
from this list) satisfies: if its name is `href`, `src` or `action`,
its value does not match the dangerous-scheme pattern (`javascript`,
`vbscript` or `data`, case-insensitively, with leading whitespace). -/
theorem c4_no_dangerous_url_kept (attrStr : List Char) (nv : List Char × List Char)
    (hmem : nv ∈ keptAttrs attrStr)
    (hname : nv.1 = "href".toList ∨ nv.1 = "src".toList ∨ nv.1 = "action".toList) :
    dangerousMatch nv.2 = false := by
  obtain ⟨a, hin, hf⟩ := List.mem_filterMap.mp hmem
  by_cases hk : attrKeep a.1 a.2 = true
  · rw [if_pos hk] at hf
    have hpair := Option.some.inj hf
    have hv2 : nv.2 = a.2 := by rw [← hpair]
    have hv1 : nv.1 = lowerL a.1 := by rw [← hpair]
    rw [hv1] at hname
    rw [hv2]
    rcases hname with h | h | h <;> cases hd : dangerousMatch a.2 <;>
      first
        | rfl
        | (exfalso
           unfold attrKeep at hk
           simp +decide [h, hd] at hk)
  · rw [if_neg hk] at hf
    exact Option.noConfusion hf

/-- Witness for C4 at a concrete attribute blob: the safe `href` value
survives the filter and indeed does not match the dangerous pattern. -/
theorem c4_witness : dangerousMatch "https://ok".toList = false :=
  c4_no_dangerous_url_kept
    " href=\"https://ok\" onclick=\"evil()\" src=\"javascript:alert(1)\"".toList
    ("href".toList, "https://ok".toList) (by decide) (Or.inl rfl)

/-- C5 (counterexample): a record containing both `image/png` and
`text/plain` can still contribute to the plain-text channel: when the
record also carries a widget-view representation, the widget branch
appends the companion `text/plain` even though `image/png` already set
`has_rich`, refuting the claim as stated. -/
theorem c5_counterexample :
    (processOutput {} c5Record).textParts = ["fallback"] ∧
    (c5Record.data.lookup "image/png").isSome = true ∧
    (c5Record.data.lookup "text/plain").isSome = true := by
  refine ⟨by decide, by decide, by decide⟩

/-- C5 (amended): on an `execute_result` or `display_data` record,
`text/plain` is a last-resort fallback except for the widget branch:
a record with `image/png` present and no widget-view entry contributes
nothing to the plain-text channel, and a record containing only
`text/plain` contributes exactly its joined value. -/
theorem c5_amended (t : String) (ch : Channels) (d : List (String × PyStr)) (p : PyStr)
    (ht : t = "execute_result" ∨ t = "display_data") :
    ((d.lookup "image/png").isSome = true →
      d.lookup "application/vnd.jupyter.widget-view+json" = none →
      (processOutput ch { output_type := t, data := d }).textParts = ch.textParts) ∧
    (d.lookup "image/png" = none → d.lookup "image/jpeg" = none → d.lookup "image/gif" = none →
      d.lookup "image/svg+xml" = none → d.lookup "text/html" = none →
      d.lookup "text/latex" = none →
      d.lookup "application/vnd.google.colaboratory.intrinsic+json" = none →
      d.lookup "application/vnd.jupyter.widget-view+json" = none →
      d.lookup "text/plain" = some p →
      (processOutput ch { output_type := t, data := d }).textParts
        = ch.textParts ++ [join p]) := by
  rw [processOutput_exec t d ch ht]
  constructor
  · intro hpng hw
    obtain ⟨v, hv⟩ := Option.isSome_iff_exists.mp hpng
    unfold processRichData
    cases h2 : d.lookup "image/jpeg" <;> cases h3 : d.lookup "image/gif" <;>
      cases h4 : d.lookup "image/svg+xml" <;> cases h5 : d.lookup "text/html" <;>
      cases h6 : d.lookup "text/latex" <;>
      cases h7 : d.lookup "application/vnd.google.colaboratory.intrinsic+json" <;>
        simp [pngStep, jpegStep, gifStep, svgStep, htmlStep, latexStep, colabStep, widgetStep,
          plainStep, hv, hw, h2, h3, h4, h5, h6, h7]
  · intro h1 h2 h3 h4 h5 h6 h7 h8 h9
    unfold processRichData
    simp [pngStep, jpegStep, gifStep, svgStep, htmlStep, latexStep, colabStep, widgetStep,
      plainStep, h1, h2, h3, h4, h5, h6, h7, h8, h9]

/-- Witness for C5 (amended) at two concrete records. -/
theorem c5_witness :
    (processOutput {} { output_type := "execute_result", data := c5PngPlain }).textParts
      = ({} : Channels).textParts ∧
    (processOutput {} { output_type := "display_data", data := c5PlainOnly }).textParts
      = ({} : Channels).textParts ++ [join (PyStr.str "only")] := by
  constructor
  · exact (c5_amended "execute_result" {} c5PngPlain (PyStr.str "p")
      (Or.inl rfl)).1 (by decide) (by decide)
  · exact (c5_amended "display_data" {} c5PlainOnly (PyStr.str "only")
      (Or.inr rfl)).2 (by decide) (by decide) (by decide) (by decide)
      (by decide) (by decide) (by decide) (by decide) (by decide)

/-- C6 (counterexample): a rich entry mapping to an empty string is not
treated as absent: an `image/png` entry with empty value still marks the
record rich (contributing an empty image entry) and suppresses the
companion `text/plain`, which the claim says should still be appended. -/
theorem c6_counterexample :
    (processOutput {} c6Record).textParts = [] ∧
    (processOutput {} c6Record).imageParts = [("", "image/png")] := by
  constructor
  · decide
  · decide

/-- C6 (amended): a missing field is treated as absent and the embedded
extractor is total (no exception paths exist), but the presence of a
rich key decides richness, not the value: an `image/png` entry mapping
to the empty string still marks the record rich, contributes an empty
image entry and suppresses the `text/plain` fallback; only the widget
branch treats an empty companion `text/plain` as absent. -/
theorem c6_amended (ch : Channels) (p : PyStr) :
    (processOutput ch (c6Rec p)).textParts = ch.textParts ∧
    (processOutput ch (c6Rec p)).imageParts = ch.imageParts ++ [("", "image/png")] ∧
    (processOutput ch c6WidgetEmpty).textParts = ch.textParts := by
  refine ⟨rfl, rfl, rfl⟩

/-- C7: for every cell taking the code path, the extractor returns the
code record whose aggregate is `buildAgg`; the aggregate is absent iff
all four combined channels are empty (so an entirely empty output list
yields no-output, never an empty aggregate), and every present aggregate
has at least one set entry. -/
theorem c7_output_presence (c : RawCell) (h1 : c.cell_type ≠ "markdown")
    (h2 : c.cell_type ≠ "raw") :
    extract_cell_data c = CellData.code (join c.source) (buildAgg c.outputs) c.execution_count ∧
    (buildAgg c.outputs = none ↔
      (String.join (combinedChannels c.outputs).textParts = "" ∧
       String.join (combinedChannels c.outputs).htmlParts = "" ∧
       (combinedChannels c.outputs).imageParts = [] ∧
       String.intercalate "\n" (combinedChannels c.outputs).errorParts = "")) ∧
    (∀ a, buildAgg c.outputs = some a →
      a.output.isSome = true ∨ a.outputHtml.isSome = true ∨ a.images.isSome = true ∨
        a.error.isSome = true) := by
  refine ⟨?_, ?_, ?_⟩
  · unfold extract_cell_data
    rw [if_neg h1, if_neg h2]
  · unfold buildAgg
    split
    · rename_i hcond
      constructor
      · intro hh
        exact Option.noConfusion hh
      · intro hconj
        exfalso
        rcases hcond with h | h | h | h
        exacts [absurd hconj.1 h, absurd hconj.2.1 h, absurd hconj.2.2.1 h,
          absurd hconj.2.2.2 h]
    · rename_i hcond
      push_neg at hcond
      exact iff_of_true rfl hcond
  · intro a ha
    unfold buildAgg at ha
    split at ha
    · rename_i hcond
      obtain rfl := Option.some.inj ha
      rcases hcond with h | h | h | h <;> simp [h]
    · exact Option.noConfusion ha

/-- Witness for C7 at a concrete stream-output cell and a concrete cell
whose only record produces empty channels. -/
theorem c7_witness :
    extract_cell_data c7StreamCell =
      CellData.code (join c7StreamCell.source) (buildAgg c7StreamCell.outputs)
        c7StreamCell.execution_count ∧
    buildAgg c7EmptyCell.outputs = none := by
  constructor
  · exact (c7_output_presence c7StreamCell (by decide) (by decide)).1
  · exact (c7_output_presence c7EmptyCell (by decide) (by decide)).2.1.mpr (by decide)

/-- C8 (counterexample): a first markdown cell whose heading line starts
with two hashes yields the fallback, not the heading text: the code only
accepts a line starting with a hash followed by a space. -/
theorem c8_counterexample :
    detect_title { cells := [mdCell "## Hello"] } "FALLBACK" = "FALLBACK" ∧
    ("FALLBACK" : String) ≠ "Hello" := by
  constructor
  · decide
  · decide

/-- C8 (amended): title detection considers only the first markdown cell
in notebook order and, within it, returns the trimmed text of the first
line that (after trimming) starts with a single leading hash followed by
a space, with the leading hashes and whitespace removed; lines starting
with several hashes, and notebooks without such a line or without a
markdown cell, yield the caller-supplied fallback.  The first markdown
cell `# Hello World` over `body text` yields `Hello World`. -/
theorem c8_amended (fb : String) :
    detect_title { cells := [mdCell "# Hello World\nbody text"] } fb = "Hello World" ∧
    detect_title { cells := [mdCell "## Hello"] } fb = fb ∧
    detect_title { cells := [{ cell_type := "code", source := PyStr.str "x" }] } fb = fb ∧
    detect_title { cells := [mdCell "no heading", mdCell "# Later"] } fb = fb := by
  refine ⟨rfl, rfl, rfl, rfl⟩

/-- C9: every error record appends the ANSI-stripped traceback lines to
the error channel, which the aggregate joins with a newline; the
stripper removes both CSI sequences (red-error example) and OSC
sequences ended by BEL or by ESC and a backslash. -/
theorem c9_ansi_stripping :
    (∀ (ch : Channels) (tb : List String),
      (processOutput ch { output_type := "error", traceback := tb }).errorParts
        = ch.errorParts ++ tb.map stripAnsi) ∧
    stripAnsi "\x1b[31merror\x1b[0m" = "error" ∧
    stripAnsi "\x1b]0;title\x07rest" = "rest" ∧
    stripAnsi "pre\x1b]8;;uri\x1b\\post" = "prepost" ∧
    buildAgg [{ output_type := "error", traceback := ["\x1b[31mTB\x1b[0m", "line2"] }]
      = some { output := none, outputHtml := none, images := none,
               error := some "TB\nline2" } := by
  refine ⟨fun ch tb => rfl, by decide, by decide, by decide, by decide⟩

/-- C10: calling `build_html` with an empty-string title is identical to
calling it with no title: the empty string is never used as the page
title, the title selection falls back to the detected heading, and a
notebook without cells falls back to the fixed default title. -/
theorem c10_empty_title (template cellsJsonRaw : String) (nb : Notebook) :
    build_html template cellsJsonRaw nb (some "") = build_html template cellsJsonRaw nb none ∧
    pyOrStr (some "") (detect_title nb "Jupyter Notebook")
      = detect_title nb "Jupyter Notebook" ∧
    detect_title { cells := [] } "Jupyter Notebook" = "Jupyter Notebook" := by
  refine ⟨rfl, rfl, rfl⟩

end Jupyderp
